import Mathlib

/-!
Verification of the `runstats` package of nzlov/go-runtime-metrics
(src/expvar/expvar.go, second compilation unit) against its
natural-language specification.

The embedding is shallow: Go structs become Lean structures, `time.Duration`
(an int64 of nanoseconds) becomes `Int`, fallible operations return an
explicit `Option String` error component, and the ambient effects the code
consumes (`os.Hostname`, the influxdb client's `Ready` check, the wall clock,
context cancellation) are passed in as explicit values.
-/

namespace RunStatsSpec

/- Constants, src/expvar/expvar.go lines 29-35. -/

def defaultHost : String := "localhost:8086"

def defaultMeasurement : String := "go.runtime"

def defaultBucket : String := "go"

def defaultOrg : String := "metrics"

/-- `10 * time.Second` in nanoseconds. -/
def defaultCollectionInterval : Int := 10 * 1000000000

/-- The `Config` struct (lines 40-71). `CollectionInterval` is a
`time.Duration`, i.e. an int64 nanosecond count. -/
structure Config where
  host : String
  tok : String
  org : String
  bucket : String
  measurement : String
  collectionInterval : Int
  disableCpu : Bool
  disableMem : Bool
  disableGc : Bool
deriving Repr, DecidableEq

/-- The Go zero value of `Config`, the value `*DefaultConfig` starts as
(line 38: `var DefaultConfig = &Config{}`). -/
def Config.zero : Config :=
  { host := "", tok := "", org := "", bucket := "", measurement := ""
    collectionInterval := 0
    disableCpu := false, disableMem := false, disableGc := false }

/- `Config.init` (lines 73-104) fills zero-valued fields one after the
other.  Each `if` of the body is one `fill*` step below; `hn` is the result
of `os.Hostname()` (`some name` on success, `none` on error). -/

def fillOrg (c : Config) : Config :=
  if c.org = "" then { c with org := defaultOrg } else c

def fillBucket (c : Config) : Config :=
  if c.bucket = "" then { c with bucket := defaultBucket } else c

def fillHost (c : Config) : Config :=
  if c.host = "" then { c with host := defaultHost } else c

def fillMeasurement (hn : Option String) (c : Config) : Config :=
  if c.measurement = "" then
    match hn with
    | none => { c with measurement := defaultMeasurement ++ ".unknown" }
    | some name => { c with measurement := defaultMeasurement ++ "." ++ name }
  else c

def fillInterval (c : Config) : Config :=
  if c.collectionInterval = 0 then
    { c with collectionInterval := defaultCollectionInterval }
  else c

/-- The field-filling core of `Config.init` (lines 78-101), in source
order: org, bucket, host, measurement, interval. -/
def Config.initFields (hn : Option String) (c : Config) : Config :=
  fillInterval (fillMeasurement hn (fillHost (fillBucket (fillOrg c))))

/-- What the measurement default resolves to (lines 89-97). -/
def measurementDefault (hn : Option String) : String :=
  match hn with
  | none => defaultMeasurement ++ ".unknown"
  | some name => defaultMeasurement ++ "." ++ name

/-- `Config.initFields` characterised field by field. -/
theorem initFields_eq (hn : Option String) (c : Config) :
    Config.initFields hn c =
      { host := if c.host = "" then defaultHost else c.host
        tok := c.tok
        org := if c.org = "" then defaultOrg else c.org
        bucket := if c.bucket = "" then defaultBucket else c.bucket
        measurement :=
          if c.measurement = "" then measurementDefault hn else c.measurement
        collectionInterval :=
          if c.collectionInterval = 0 then defaultCollectionInterval
          else c.collectionInterval
        disableCpu := c.disableCpu
        disableMem := c.disableMem
        disableGc := c.disableGc } := by
  obtain ⟨host, tok, org, bucket, meas, ci, dc, dm, dg⟩ := c
  by_cases h1 : org = "" <;> by_cases h2 : bucket = "" <;>
    by_cases h3 : host = "" <;> by_cases h4 : meas = "" <;>
    by_cases h5 : ci = 0 <;> cases hn <;>
    simp [Config.initFields, fillOrg, fillBucket, fillHost, fillMeasurement,
      fillInterval, measurementDefault, h1, h2, h3, h4, h5]

/-- A config is fully resolved when every defaultable field is away from
its zero value. -/
def Config.resolved (c : Config) : Prop :=
  c.org ≠ "" ∧ c.bucket ≠ "" ∧ c.host ≠ "" ∧ c.measurement ≠ "" ∧
    c.collectionInterval ≠ 0

instance (c : Config) : Decidable c.resolved := by
  unfold Config.resolved; infer_instance

/- Pointer semantics of `Config.init` (lines 73-76, 103): the receiver is a
`*Config` that may be nil; a nil receiver is replaced by the package-level
`DefaultConfig` pointer, the pointee is mutated in place, and the same
pointer is returned together with a nil error.  A heap maps addresses
(`Nat`) to `Config` values; `none` is the nil pointer. -/

structure Heap where
  store : Nat → Config
  defaultConfigAddr : Nat

/-- `Config.init` (lines 73-104) on the heap: returns the pointer the
resolved config lives at, the updated heap, and the error (always nil,
line 103). -/
def Config.init (hn : Option String) (h : Heap) (p : Option Nat) :
    Nat × Heap × Option String :=
  let a := match p with
    | none => h.defaultConfigAddr
    | some x => x
  (a,
   { h with
     store := fun b =>
       if b = a then Config.initFields hn (h.store a) else h.store b },
   none)

/- RunCollector (lines 106-140).  The ambient effects it consumes: the
hostname lookup inside `init`, and the result of the `client.Ready` ping
(`none` = ready, `some msg` = the ping failed, e.g. malformed or
unreachable endpoint). -/

structure Env where
  hostname : Option String
  readyErr : Option String
deriving Repr, DecidableEq

/-- A Go context, for the `ctx` parameter of `RunCollector`: `cancelledAt`
is the tick index from which the context is cancelled (`none` = never). -/
structure Ctx where
  cancelledAt : Option Nat
deriving Repr, DecidableEq

/-- The collector built at lines 131-135: `collector.New(onNewPoint)` with
`PauseDur` and the three enable flags set.  `stopAt` is the stop signal
wired into the collector at construction: the tick index from which the
worker observes a stop request. `RunCollector` wires none — the only
fields it sets are the four of lines 132-135 and the callback. -/
structure CollectorCfg where
  pauseDur : Int
  enableCPU : Bool
  enableMem : Bool
  enableGC : Bool
  stopAt : Option Nat
deriving Repr, DecidableEq

/-- The `RunStats` handle (lines 125-129): the resolved config and the
write API obtained from `client.WriteAPI(config.Org, config.Bucket)`. -/
structure RunStatsState where
  config : Config
  writeOrg : String
  writeBucket : String
deriving Repr, DecidableEq

/-- Everything `RunCollector` produces: the returned handle, the returned
error, and the list of background collector workers it spawned
(line 137, `go _collector.Run()`). -/
structure RunOutcome where
  result : Option RunStatsState
  err : Option String
  spawned : List CollectorCfg
deriving Repr, DecidableEq

/-- `RunCollector` (lines 106-140).  The `cfg` argument is the `*Config`
argument by value (`none` = nil pointer, which `init` replaces with the
zero-valued `DefaultConfig`).  The `ctx` parameter is never read by the
body — the ping at line 121 even uses `context.Background()` — which the
unused binder records faithfully. -/
def RunCollector (env : Env) (_ctx : Ctx) (cfg : Option Config) :
    RunOutcome :=
  let config := Config.initFields env.hostname
    (match cfg with | none => Config.zero | some c => c)
  match env.readyErr with
  | some e =>
      { result := none, err := some ("influxdb no ready: " ++ e)
        spawned := [] }
  | none =>
      let rs : RunStatsState :=
        { config := config, writeOrg := config.org
          writeBucket := config.bucket }
      let c : CollectorCfg :=
        { pauseDur := config.collectionInterval
          enableCPU := !config.disableCpu
          enableMem := !config.disableMem
          enableGC := !config.disableGc
          stopAt := none }
      { result := some rs, err := none, spawned := [c] }

/-- Has the worker observed its stop signal by tick `t`? -/
def CollectorCfg.stoppedBy (c : CollectorCfg) (t : Nat) : Bool :=
  match c.stopAt with
  | none => false
  | some s => decide (s ≤ t)

/-- Modelled from the spec: the `collector` package of this repository is
not under src/, so its `Run` loop is taken from the spec — a sequential
loop, one iteration per tick, wait-for-tick → sample → publish, which
terminates only when the stop signal wired at construction fires, and
otherwise invokes the registered callback (hence one sink write) on every
tick.  `collectorWrites c n` counts the sink writes the worker performs
over the first `n` ticks. -/
def collectorWrites (c : CollectorCfg) (n : Nat) : Nat :=
  (List.range n).countP (fun t => !c.stoppedBy t)

/- The publish adapter `RunStats.onNewPoint` (lines 153-155). -/

/-- The payload of one tick, `collector.Fields`: categorical tags and
numeric field values. -/
structure FieldSet where
  tags : List (String × String)
  values : List (String × Int)
deriving Repr, DecidableEq

/-- A point handed to the sink: `influxdb2.NewPoint(measurement, tags,
fields, timestamp)`. -/
structure Point where
  measurement : String
  tags : List (String × String)
  fields : List (String × Int)
  timestamp : Nat
deriving Repr, DecidableEq

/-- The observable effects of one `onNewPoint` call. -/
structure TickEffects where
  points : List Point
  loggerMsgs : List String
deriving Repr, DecidableEq

/-- `RunStats.onNewPoint` (lines 153-155): builds one point from the
resolved measurement name, the field set's tags and values and the
current wall clock `now`, and submits it with the non-blocking
`WritePoint`.  `sinkErr` is the outcome of the underlying sink write for
this point; `WritePoint` returns nothing, so the body cannot observe it
(the write API delivers errors on a channel nothing reads).  The body
never touches `r.logger`. -/
def onNewPoint (r : RunStatsState) (_sinkErr : Option String) (now : Nat)
    (fields : FieldSet) : TickEffects :=
  { points :=
      [{ measurement := r.config.measurement, tags := fields.tags
         fields := fields.values, timestamp := now }]
    loggerMsgs := [] }

/- `DefaultLogger` (lines 162-165). -/

/-- An observable logging effect. `log.Fatalln` writes to the standard
logger's output, which defaults to the process's standard error stream,
then exits. -/
inductive LogEffect where
  | stderrWrite (msg : String)
  | exitProcess (code : Nat)
deriving Repr, DecidableEq

/-- `DefaultLogger.Println` (line 164): empty body, the message is
discarded. -/
def DefaultLogger.println (_v : List String) : List LogEffect := []

/-- `DefaultLogger.Fatalln` (line 165): delegates to `log.Fatalln`, which
prints the arguments to the standard diagnostic stream and exits with
status 1. -/
def DefaultLogger.fatalln (v : List String) : List LogEffect :=
  [.stderrWrite (String.intercalate " " v), .exitProcess 1]

/- Helper lemmas shared by the claim theorems. -/

theorem measurementDefault_ne_empty (hn : Option String) :
    measurementDefault hn ≠ "" := by
  cases hn with
  | none =>
      simp only [measurementDefault, defaultMeasurement]
      decide
  | some name =>
      simp [measurementDefault, defaultMeasurement, String.ext_iff,
        String.data_append]

theorem initFields_resolved (hn : Option String) (c : Config) :
    (Config.initFields hn c).resolved := by
  rw [initFields_eq]
  refine ⟨?_, ?_, ?_, ?_, ?_⟩
  · show (if c.org = "" then defaultOrg else c.org) ≠ ""
    split
    · simp [defaultOrg]
    · assumption
  · show (if c.bucket = "" then defaultBucket else c.bucket) ≠ ""
    split
    · simp [defaultBucket]
    · assumption
  · show (if c.host = "" then defaultHost else c.host) ≠ ""
    split
    · simp [defaultHost]
    · assumption
  · show (if c.measurement = "" then measurementDefault hn
        else c.measurement) ≠ ""
    split
    · exact measurementDefault_ne_empty hn
    · assumption
  · show (if c.collectionInterval = 0 then defaultCollectionInterval
        else c.collectionInterval) ≠ 0
    split
    · simp [defaultCollectionInterval]
    · assumption

theorem resolved_initFields_id (hn : Option String) (c : Config)
    (h : c.resolved) : Config.initFields hn c = c := by
  obtain ⟨h1, h2, h3, h4, h5⟩ := h
  rw [initFields_eq]
  simp [h1, h2, h3, h4, h5]

theorem initFields_flags (hn : Option String) (c : Config) :
    (Config.initFields hn c).disableCpu = c.disableCpu ∧
    (Config.initFields hn c).disableMem = c.disableMem ∧
    (Config.initFields hn c).disableGc = c.disableGc := by
  rw [initFields_eq]
  exact ⟨rfl, rfl, rfl⟩

/-- A heap whose every cell holds the zero config. -/
def zeroHeap : Heap := { store := fun _ => Config.zero, defaultConfigAddr := 0 }

/-- A concrete fully-resolved configuration. -/
def fullCfg : Config :=
  { host := "db:9999", tok := "t", org := "o", bucket := "b"
    measurement := "m", collectionInterval := 5
    disableCpu := true, disableMem := false, disableGc := true }

theorem init_store_self (hn : Option String) (hp : Heap) (a : Nat) :
    (Config.init hn hp (some a)).2.1.store a =
      Config.initFields hn (hp.store a) := by
  simp [Config.init]

/- Claim theorems. -/

/-- C4: for every input configuration, config resolution fills each field
at its zero value with its fixed default — host "localhost:8086", org
"metrics", bucket "go", interval 10 seconds (in nanoseconds) — and leaves
every explicitly set (non-zero) field unchanged, each rule applying
independently of the others. -/
theorem c4_defaulting_rules (hn : Option String) (c : Config) :
    (Config.initFields hn c).host =
      (if c.host = "" then "localhost:8086" else c.host) ∧
    (Config.initFields hn c).org =
      (if c.org = "" then "metrics" else c.org) ∧
    (Config.initFields hn c).bucket =
      (if c.bucket = "" then "go" else c.bucket) ∧
    (Config.initFields hn c).collectionInterval =
      (if c.collectionInterval = 0 then 10 * 1000000000
       else c.collectionInterval) ∧
    (Config.initFields hn c).measurement =
      (if c.measurement = "" then measurementDefault hn
       else c.measurement) ∧
    (Config.initFields hn c).tok = c.tok ∧
    (Config.initFields hn c).disableCpu = c.disableCpu ∧
    (Config.initFields hn c).disableMem = c.disableMem ∧
    (Config.initFields hn c).disableGc = c.disableGc := by
  rw [initFields_eq]
  exact ⟨rfl, rfl, rfl, rfl, rfl, rfl, rfl, rfl, rfl⟩

/-- C5: resolving a configuration whose measurement name is unset sets it
to the fixed base name "go.runtime" joined with "." and the resolved host
identity, or with ".unknown" when the host identity lookup fails; the
lookup failure is absorbed by the sentinel, and `Config.init` still
returns a fully-populated configuration together with a nil error. -/
theorem c5_measurement_sentinel (hn : Option String) (hp : Heap) (a : Nat)
    (hm : (hp.store a).measurement = "") :
    ((Config.init hn hp (some a)).2.1.store a).measurement =
      (match hn with
       | some name => "go.runtime" ++ "." ++ name
       | none => "go.runtime" ++ ".unknown") ∧
    ((Config.init hn hp (some a)).2.1.store a).resolved ∧
    (Config.init hn hp (some a)).2.2 = none := by
  rw [init_store_self]
  refine ⟨?_, initFields_resolved hn _, rfl⟩
  rw [initFields_eq]
  show (if (hp.store a).measurement = "" then measurementDefault hn
      else (hp.store a).measurement) = _
  rw [if_pos hm]
  cases hn <;> rfl

theorem c5_witness :
    ((Config.init none zeroHeap (some 0)).2.1.store 0).measurement =
      "go.runtime" ++ ".unknown" ∧
    ((Config.init none zeroHeap (some 0)).2.1.store 0).resolved ∧
    (Config.init none zeroHeap (some 0)).2.2 = none :=
  c5_measurement_sentinel none zeroHeap 0 rfl

/-- C6: config resolution is idempotent — resolving a resolved
configuration again (with any hostname lookup outcome) changes nothing,
and on an already fully-resolved configuration resolution is the
identity. -/
theorem c6_init_idempotent (hn hn2 : Option String) (c : Config) :
    Config.initFields hn2 (Config.initFields hn c) =
      Config.initFields hn c ∧
    (c.resolved → Config.initFields hn c = c) :=
  ⟨resolved_initFields_id hn2 _ (initFields_resolved hn c),
   fun h => resolved_initFields_id hn c h⟩

theorem c6_witness :
    (Config.initFields none (Config.initFields (some "box") Config.zero) =
      Config.initFields (some "box") Config.zero) ∧
    fullCfg.resolved ∧
    Config.initFields (some "box") fullCfg = fullCfg :=
  ⟨(c6_init_idempotent (some "box") none Config.zero).1, by decide,
   (c6_init_idempotent (some "box") none fullCfg).2 (by decide)⟩

/-- C10: `Config.init` on a nil receiver does not fail — it substitutes
the package-level `DefaultConfig` pointer, resolves that pointee in
place, and returns that pointer with a nil error; on a non-nil receiver
it returns the very pointer it was given, with the pointee resolved in
place and every other heap cell untouched, so the resolved configuration
aliases the caller's value. -/
theorem c10_nil_receiver_and_aliasing (hn : Option String) (hp : Heap)
    (a b : Nat) :
    (Config.init hn hp none).1 = hp.defaultConfigAddr ∧
    (Config.init hn hp none).2.2 = none ∧
    ((Config.init hn hp none).2.1.store b =
      if b = hp.defaultConfigAddr
      then Config.initFields hn (hp.store hp.defaultConfigAddr)
      else hp.store b) ∧
    (Config.init hn hp (some a)).1 = a ∧
    (Config.init hn hp (some a)).2.2 = none ∧
    ((Config.init hn hp (some a)).2.1.store b =
      if b = a then Config.initFields hn (hp.store a) else hp.store b) :=
  ⟨rfl, rfl, rfl, rfl, rfl, rfl⟩

/-- C2: when the ready/ping check fails at start-up (malformed or
unreachable sink endpoint), `RunCollector` returns the wrapped error
synchronously, returns no handle, and spawns no background collector —
the pipeline never begins ticking. -/
theorem c2_ready_failure_is_synchronous (env : Env) (ctx : Ctx)
    (cfg : Option Config) (e : String) (h : env.readyErr = some e) :
    (RunCollector env ctx cfg).err =
      some ("influxdb no ready: " ++ e) ∧
    (RunCollector env ctx cfg).result = none ∧
    (RunCollector env ctx cfg).spawned = [] := by
  simp [RunCollector, h]

theorem c2_witness :
    (RunCollector { hostname := some "box", readyErr := some "dial refused" }
        { cancelledAt := none } none).err =
      some ("influxdb no ready: " ++ "dial refused") ∧
    (RunCollector { hostname := some "box", readyErr := some "dial refused" }
        { cancelledAt := none } none).result = none ∧
    (RunCollector { hostname := some "box", readyErr := some "dial refused" }
        { cancelledAt := none } none).spawned = [] :=
  c2_ready_failure_is_synchronous _ _ _ _ rfl

/-- C7: the collector spawned by a successful `RunCollector` carries, for
each metric group, exactly the negation of the corresponding Disable*
config field (and the resolved interval as its pause duration) — so with
the zero-value config all three groups are enabled, and a group is
disabled only if its flag is explicitly set. -/
theorem c7_enable_flags (env : Env) (ctx : Ctx) (cfg : Config)
    (h : env.readyErr = none) :
    (RunCollector env ctx (some cfg)).spawned =
      [{ pauseDur := (Config.initFields env.hostname cfg).collectionInterval
         enableCPU := !cfg.disableCpu
         enableMem := !cfg.disableMem
         enableGC := !cfg.disableGc
         stopAt := none }] := by
  obtain ⟨f1, f2, f3⟩ := initFields_flags env.hostname cfg
  simp [RunCollector, h, f1, f2, f3]

theorem c7_witness :
    (RunCollector { hostname := some "box", readyErr := none }
        { cancelledAt := none } (some Config.zero)).spawned =
      [{ pauseDur := 10 * 1000000000, enableCPU := true, enableMem := true
         enableGC := true, stopAt := none }] := by
  rw [c7_enable_flags { hostname := some "box", readyErr := none }
    { cancelledAt := none } Config.zero rfl]
  decide

/-- C1: the claim fails on the code.  `RunCollector` never reads its
`ctx` parameter (its outcome is identical for any two contexts — the body
even pings with `context.Background()`), and it wires no stop signal into
the collector it spawns; so with the context cancelled from tick 0 the
background worker still performs a sink write on each of the first 3
ticks instead of terminating within one interval. -/
theorem c1_cancelling_ctx_does_not_stop_collector :
    (∀ (env : Env) (ctx1 ctx2 : Ctx) (cfg : Option Config),
        RunCollector env ctx1 cfg = RunCollector env ctx2 cfg) ∧
    (RunCollector { hostname := some "box", readyErr := none }
        { cancelledAt := some 0 } (some Config.zero)).spawned.map
      (fun c => collectorWrites c 3) = [3] := by
  refine ⟨fun env ctx1 ctx2 cfg => rfl, ?_⟩
  decide

/-- C3 counterexample: on a tick whose underlying sink write fails, the
publish adapter surfaces nothing to the logger — its logger call list is
empty — refuting that every write error is surfaced to the pluggable
logger. -/
theorem c3_counterexample :
    Option.isSome (some "write failed") = true ∧
    (onNewPoint { config := fullCfg, writeOrg := "o", writeBucket := "b" }
        (some "write failed") 7
        { tags := [("host", "box")],
          values := [("cpu.count", 8)] }).loggerMsgs = [] :=
  ⟨rfl, rfl⟩

/-- C3 amended: on every tick, including one whose sink write fails, the
publish adapter submits exactly one point, never invokes the logger, and
behaves identically to a successful tick — it proceeds without
terminating the scheduler and without blocking to retry. -/
theorem c3_publish_error_dropped_silently (r : RunStatsState) (e : String)
    (now : Nat) (fs : FieldSet) :
    (onNewPoint r (some e) now fs).loggerMsgs = [] ∧
    (onNewPoint r (some e) now fs).points.length = 1 ∧
    onNewPoint r (some e) now fs = onNewPoint r none now fs :=
  ⟨rfl, rfl, rfl⟩

/-- C8: each field set delivered by a tick yields exactly one sink write:
a single point built from the resolved measurement name, the field set's
tags, the field set's values, and the current wall-clock timestamp. -/
theorem c8_one_write_per_tick (r : RunStatsState) (se : Option String)
    (now : Nat) (fs : FieldSet) :
    (onNewPoint r se now fs).points =
      [{ measurement := r.config.measurement, tags := fs.tags
         fields := fs.values, timestamp := now }] := rfl

/-- C9: the default logger implementation discards informational
(Println) messages entirely and writes fatal (Fatalln) messages to the
process's standard diagnostic stream (then exits). -/
theorem c9_default_logger_routing (v : List String) :
    DefaultLogger.println v = [] ∧
    DefaultLogger.fatalln v =
      [LogEffect.stderrWrite (String.intercalate " " v),
       LogEffect.exitProcess 1] :=
  ⟨rfl, rfl⟩

end RunStatsSpec
